import Mathlib

/-!
Shallow embedding of the unshelve monitor (src/main.rs).

The program is a single-module OpenStack client.  Its core is the
monitoring loop `start_monitoring`: once per interval it pings a target
IP; on ping failure it fetches the server from the cloud and, when the
status string is exactly "SHELVED_OFFLOADED", issues an Unshelve action,
shortening the next sleep to 60 seconds on action success.

External collaborators (the `openstack` crate, the `ping` crate, the
process environment and the std IP-address parser) are modelled as
oracle parameters: each definition takes the outcome of every external
call it makes, and the definition reproduces the control flow of the
Rust source on those outcomes.  `println!` output that reports errors or
decisions is modelled as a list of log lines (quoting punctuation around
interpolated values is omitted).
-/

deriving instance DecidableEq for Except

/-- A server as observed through the cloud client: the fields of the
OpenStack server object that this program reads. -/
structure ServerRec where
  id : String
  name : String
  status : String
deriving DecidableEq

/-- The configuration that `start_monitoring` (src/main.rs lines 275-289)
reads from the environment before entering the loop. -/
structure MonitorConfig where
  serverName : String
  pingIp : String
  pingIntervalMinutes : Nat
  pingTimeoutSecs : Nat
deriving DecidableEq

/-- Outcomes of the external calls available to one iteration of the
monitoring loop: the ping result, the `cloud.get_server` outcome and the
`server.action(ServerAction::Unshelve)` outcome. -/
structure CycleEnv where
  pingOk : Bool
  getServer : Except String ServerRec
  action : Except String Unit
deriving DecidableEq

/-- What one loop iteration produced: the sleep interval (in seconds)
passed to `sleep` at the end of the iteration, the number of
`cloud.get_server` and `server.action` calls made, and the report lines
printed. -/
structure CycleResult where
  interval : Nat
  getServerCalls : Nat
  actionCalls : Nat
  log : List String
deriving DecidableEq

/-- The u64 value `ping_interval_minutes * 60` passed to
`Duration::from_secs` (src/main.rs line 300); the multiply wraps at
2^64 (release-mode u64 arithmetic). -/
def normalIntervalSecs (m : Nat) : Nat := (m * 60) % (2 ^ 64)

/-- One iteration of the monitoring loop body (src/main.rs lines
299-343): reset `interval` to the normal cadence, ping; on ping failure
fetch the server; if its status string equals "SHELVED_OFFLOADED" issue
the Unshelve action, and on action success set `interval` to
`Duration::from_secs(1 * 60)`; every failure is only printed. -/
def start_monitoring_cycle (cfg : MonitorConfig) (env : CycleEnv) : CycleResult :=
  let interval := normalIntervalSecs cfg.pingIntervalMinutes
  if env.pingOk then
    { interval := interval, getServerCalls := 0, actionCalls := 0, log := [] }
  else
    match env.getServer with
    | Except.ok server =>
      if server.status = "SHELVED_OFFLOADED" then
        match env.action with
        | Except.ok _ =>
          { interval := 60
            getServerCalls := 1
            actionCalls := 1
            log := ["checking OpenStack status...",
                    "Server status in OpenStack: " ++ server.status,
                    "Server is shelved_offloaded - attempting to unshelve...",
                    "✓ Unshelve command sent successfully",
                    "Waiting for server to become ACTIVE..."] }
        | Except.error e =>
          { interval := interval
            getServerCalls := 1
            actionCalls := 1
            log := ["checking OpenStack status...",
                    "Server status in OpenStack: " ++ server.status,
                    "Server is shelved_offloaded - attempting to unshelve...",
                    "✗ Failed to unshelve server: " ++ e] }
      else
        { interval := interval
          getServerCalls := 1
          actionCalls := 0
          log := ["checking OpenStack status...",
                  "Server status in OpenStack: " ++ server.status,
                  "Server status is " ++ server.status ++ " - no action required"] }
    | Except.error e =>
      { interval := interval
        getServerCalls := 1
        actionCalls := 0
        log := ["checking OpenStack status...",
                "✗ Failed to get server info: " ++ e] }

/-- Iterated runs of the loop body: the loop re-creates `interval` at the
top of every iteration, so successive iterations interact only through
the sequence of sleeps. -/
def start_monitoring_run (cfg : MonitorConfig) (envs : List CycleEnv) : List CycleResult :=
  envs.map (start_monitoring_cycle cfg)

/-- Whether a cycle environment makes the loop issue an Unshelve action
that succeeds: ping failed, the server fetch succeeded with status
exactly "SHELVED_OFFLOADED", and the action call returned Ok. -/
def unshelveSucceeded (env : CycleEnv) : Bool :=
  !env.pingOk &&
    (match env.getServer with
     | Except.ok srv =>
       decide (srv.status = "SHELVED_OFFLOADED") &&
         (match env.action with
          | Except.ok _ => true
          | Except.error _ => false)
     | Except.error _ => false)

/-- Total number of `server.action` calls over a run of the loop. -/
def totalActionCalls (cfg : MonitorConfig) (envs : List CycleEnv) : Nat :=
  ((start_monitoring_run cfg envs).map CycleResult.actionCalls).sum

/-- Accumulate the value of a decimal digit string; `none` as soon as a
non-digit is met. -/
def parseU64Aux : List Char → Nat → Option Nat
  | [], acc => some acc
  | c :: t, acc =>
    if c.isDigit then parseU64Aux t (acc * 10 + (c.toNat - 48))
    else none

/-- Rust `str::parse::<u64>()`: an optional leading plus sign, then a
non-empty run of decimal digits whose value fits in 64 bits. -/
def parseU64 (s : String) : Except String Nat :=
  let chars :=
    match s.data with
    | c :: t => if c = '+' then t else c :: t
    | [] => []
  match chars with
  | [] => Except.error "cannot parse integer from empty string"
  | _ =>
    match parseU64Aux chars 0 with
    | some n =>
      if n < 2 ^ 64 then Except.ok n
      else Except.error "number too large to fit in target type"
    | none => Except.error "invalid digit found in string"

/-- The configuration phase of `start_monitoring` (src/main.rs lines
275-289): `SERVER_NAME` and `PING_IP` are required (a missing one is a
fatal error before the loop is entered); `PING_INTERVAL_MINUTES`
defaults to "5" and `PING_TIMEOUT_SECONDS` to "3" before parsing.
`envv` maps a variable name to its value when set. -/
def start_monitoring_config (envv : String → Option String) : Except String MonitorConfig :=
  match envv "SERVER_NAME" with
  | none => Except.error "SERVER_NAME not set in environment"
  | some serverName =>
    match envv "PING_IP" with
    | none => Except.error "PING_IP not set in environment"
    | some pingIp =>
      match parseU64 ((envv "PING_INTERVAL_MINUTES").getD "5") with
      | Except.error _ => Except.error "PING_INTERVAL_MINUTES must be a number"
      | Except.ok m =>
        match parseU64 ((envv "PING_TIMEOUT_SECONDS").getD "3") with
        | Except.error _ => Except.error "PING_TIMEOUT_SECONDS must be a number"
        | Except.ok t =>
          Except.ok { serverName := serverName, pingIp := pingIp,
                      pingIntervalMinutes := m, pingTimeoutSecs := t }

/-- The reply data of a successful ping send. -/
structure PingReply where
  target : String
  rtt : Nat
deriving DecidableEq

/-- `ping_server` (src/main.rs lines 250-270).  `parsedIp` is the outcome
of `ip.parse::<IpAddr>()` (std library: `some` the parsed address text on
success, `none` on a parse error); `sendOutcome` is the outcome of the
ping send.  The result is `none` exactly when the function panics: the
`.unwrap()` on a failed parse aborts the process before any probe is
attempted.  Otherwise a successful send logs and returns `true` and any
send error is collapsed to a logged `false`. -/
def ping_server (parsedIp : Option String) (sendOutcome : Except String PingReply) : Option Bool :=
  match parsedIp with
  | none => none
  | some _ =>
    match sendOutcome with
    | Except.ok _ => some true
    | Except.error _ => some false

/-- `needle` occurs as a contiguous subsequence of the character list. -/
def listContainsSub (needle : List Char) : List Char → Bool
  | [] => needle.isEmpty
  | c :: t => needle.isPrefixOf (c :: t) || listContainsSub needle t

/-- Rust `hay.contains(needle)`: substring containment. -/
def strContainsSub (hay needle : String) : Bool := listContainsSub needle.data hay.data

/-- The server-resolution step of `server_info` (src/main.rs lines
174-193): try `cloud.get_server(identifier)` (exact lookup); if it
fails, fetch the full listing, take the first server whose name
contains the identifier as a substring and resolve it through
`server.details().await?` — a further remote call whose failure
propagates (`details` is the outcome of that call per server); fail if
the listing fails or no name matches. -/
def server_info_resolve (get : Except String ServerRec)
    (listing : Except String (List ServerRec))
    (details : ServerRec → Except String ServerRec) (ident : String) :
    Except String ServerRec :=
  match get with
  | Except.ok s => Except.ok s
  | Except.error _ =>
    match listing with
    | Except.error _ => Except.error "Failed to fetch server list"
    | Except.ok servers =>
      match servers.find? (fun s => strContainsSub s.name ident) with
      | some s => details s
      | none => Except.error ("Server " ++ ident ++ " not found")

/-- The server lookup performed by the monitoring loop (src/main.rs line
309): a single `cloud.get_server(&server_name)` call; the listing is
never consulted and there is no fallback. -/
def start_monitoring_lookup (get : Except String ServerRec)
    (_listing : Except String (List ServerRec)) (_ident : String) :
    Except String ServerRec :=
  get

/-- `unshelve_manual` (src/main.rs lines 226-248): fetch the server and
issue Unshelve; every failure is only printed, and the function returns
`Ok(())` on every path. -/
def unshelve_manual (get : Except String ServerRec) (action : Except String Unit) :
    List String × Except String Unit :=
  match get with
  | Except.ok server =>
    match action with
    | Except.ok _ =>
      (["Server status: " ++ server.status,
        "✓ Unshelve command sent successfully"], Except.ok ())
    | Except.error e =>
      (["Server status: " ++ server.status,
        "✗ Failed to unshelve server: " ++ e], Except.ok ())
  | Except.error e =>
    (["✗ Failed to get server info: " ++ e], Except.ok ())

/-- Placeholder defaults used with `List.getD` when indexing a run. -/
def dfltCycleResult : CycleResult :=
  { interval := 0, getServerCalls := 0, actionCalls := 0, log := [] }

/-- Placeholder default cycle environment for `List.getD`. -/
def dfltCycleEnv : CycleEnv :=
  { pingOk := true, getServer := Except.error "", action := Except.error "" }

/-- A concrete configuration used to instantiate universally quantified
theorems on explicit inputs. -/
def cfgEx : MonitorConfig :=
  { serverName := "web1", pingIp := "10.0.0.7", pingIntervalMinutes := 5, pingTimeoutSecs := 3 }

/-- A concrete server record in the SHELVED_OFFLOADED status. -/
def srvShelved : ServerRec := { id := "id-1", name := "web1", status := "SHELVED_OFFLOADED" }

/-- A concrete server record in the ACTIVE status. -/
def srvActive : ServerRec := { id := "id-1", name := "web1", status := "ACTIVE" }

/-- C1: in a cycle where the probe fails and the fetched status is
SHELVED_OFFLOADED, the Unshelve action is issued exactly once; the next
sleep is the 60-second recovering interval when the action succeeds, and
the normal interval when it fails, the failure being logged and not
retried within the cycle. -/
theorem c1_shelved_offloaded_unshelve_once (cfg : MonitorConfig) (env : CycleEnv)
    (srv : ServerRec) (hping : env.pingOk = false)
    (hget : env.getServer = Except.ok srv)
    (hst : srv.status = "SHELVED_OFFLOADED") :
    (start_monitoring_cycle cfg env).actionCalls = 1 ∧
    (env.action = Except.ok () →
      (start_monitoring_cycle cfg env).interval = 60) ∧
    (∀ e, env.action = Except.error e →
      (start_monitoring_cycle cfg env).interval = normalIntervalSecs cfg.pingIntervalMinutes ∧
      ("✗ Failed to unshelve server: " ++ e) ∈ (start_monitoring_cycle cfg env).log) := by
  cases hact : env.action with
  | ok u =>
    refine ⟨?_, ?_, ?_⟩ <;>
      simp [start_monitoring_cycle, hping, hget, hst, hact]
  | error e =>
    refine ⟨?_, ?_, ?_⟩ <;>
      simp [start_monitoring_cycle, hping, hget, hst, hact]

/-- Witness for C1 at explicit inputs: an action-success cycle yields the
60-second interval, and an action-failure cycle still issues exactly one
action call. -/
theorem c1_witness :
    (start_monitoring_cycle cfgEx
      { pingOk := false, getServer := Except.ok srvShelved,
        action := Except.ok () }).interval = 60 ∧
    (start_monitoring_cycle cfgEx
      { pingOk := false, getServer := Except.ok srvShelved,
        action := Except.error "quota exceeded" }).actionCalls = 1 :=
  ⟨(c1_shelved_offloaded_unshelve_once cfgEx _ srvShelved rfl rfl rfl).2.1 rfl,
   (c1_shelved_offloaded_unshelve_once cfgEx _ srvShelved rfl rfl rfl).1⟩

/-- C2: in a cycle where the probe succeeds, no cloud API call is made
(neither get_server nor action) and the next sleep is the normal
interval. -/
theorem c2_healthy_probe_no_api (cfg : MonitorConfig) (env : CycleEnv)
    (h : env.pingOk = true) :
    (start_monitoring_cycle cfg env).getServerCalls = 0 ∧
    (start_monitoring_cycle cfg env).actionCalls = 0 ∧
    (start_monitoring_cycle cfg env).interval = normalIntervalSecs cfg.pingIntervalMinutes := by
  refine ⟨?_, ?_, ?_⟩ <;> simp [start_monitoring_cycle, h]

/-- Witness for C2 at an explicit input. -/
theorem c2_witness :
    (start_monitoring_cycle cfgEx
      { pingOk := true, getServer := Except.ok srvShelved,
        action := Except.ok () }).getServerCalls = 0 ∧
    (start_monitoring_cycle cfgEx
      { pingOk := true, getServer := Except.ok srvShelved,
        action := Except.ok () }).actionCalls = 0 ∧
    (start_monitoring_cycle cfgEx
      { pingOk := true, getServer := Except.ok srvShelved,
        action := Except.ok () }).interval = normalIntervalSecs cfgEx.pingIntervalMinutes :=
  c2_healthy_probe_no_api cfgEx _ rfl

/-- C3: in a cycle where the probe fails and the fetch succeeds with any
status string other than the exact, case-sensitive "SHELVED_OFFLOADED",
no action is issued and the next sleep is the normal interval. -/
theorem c3_other_status_no_action (cfg : MonitorConfig) (env : CycleEnv)
    (srv : ServerRec) (hping : env.pingOk = false)
    (hget : env.getServer = Except.ok srv)
    (hst : srv.status ≠ "SHELVED_OFFLOADED") :
    (start_monitoring_cycle cfg env).actionCalls = 0 ∧
    (start_monitoring_cycle cfg env).interval = normalIntervalSecs cfg.pingIntervalMinutes := by
  refine ⟨?_, ?_⟩ <;> simp [start_monitoring_cycle, hping, hget, hst]

/-- Witness for C3 at explicit inputs: the lower-case spelling
"shelved_offloaded" and the status ACTIVE both land in the no-action
branch. -/
theorem c3_witness :
    (start_monitoring_cycle cfgEx
      { pingOk := false,
        getServer := Except.ok { id := "id-1", name := "web1", status := "shelved_offloaded" },
        action := Except.ok () }).actionCalls = 0 ∧
    (start_monitoring_cycle cfgEx
      { pingOk := false, getServer := Except.ok srvActive,
        action := Except.ok () }).actionCalls = 0 :=
  ⟨(c3_other_status_no_action cfgEx _ _ rfl rfl (by decide)).1,
   (c3_other_status_no_action cfgEx _ _ rfl rfl (by decide)).1⟩

/-- C5: in a cycle where the probe fails and the server fetch fails, the
failure is logged, no action is issued, and the next sleep is the normal
interval. -/
theorem c5_lookup_failure_no_action (cfg : MonitorConfig) (env : CycleEnv)
    (e : String) (hping : env.pingOk = false)
    (hget : env.getServer = Except.error e) :
    (start_monitoring_cycle cfg env).actionCalls = 0 ∧
    (start_monitoring_cycle cfg env).interval = normalIntervalSecs cfg.pingIntervalMinutes ∧
    ("✗ Failed to get server info: " ++ e) ∈ (start_monitoring_cycle cfg env).log := by
  refine ⟨?_, ?_, ?_⟩ <;> simp [start_monitoring_cycle, hping, hget]

/-- Witness for C5 at an explicit input. -/
theorem c5_witness :
    (start_monitoring_cycle cfgEx
      { pingOk := false, getServer := Except.error "timed out",
        action := Except.ok () }).actionCalls = 0 ∧
    (start_monitoring_cycle cfgEx
      { pingOk := false, getServer := Except.error "timed out",
        action := Except.ok () }).interval = normalIntervalSecs cfgEx.pingIntervalMinutes ∧
    ("✗ Failed to get server info: " ++ "timed out") ∈
      (start_monitoring_cycle cfgEx
        { pingOk := false, getServer := Except.error "timed out",
          action := Except.ok () }).log :=
  c5_lookup_failure_no_action cfgEx _ "timed out" rfl rfl

/-- The interval produced by one cycle is the 60-second recovering
interval exactly when that cycle performed a successful unshelve, and
the normal interval otherwise. -/
theorem cycle_interval_eq (cfg : MonitorConfig) (env : CycleEnv) :
    (start_monitoring_cycle cfg env).interval =
      (if unshelveSucceeded env then 60 else normalIntervalSecs cfg.pingIntervalMinutes) := by
  rcases env with ⟨ping, get, act⟩
  cases ping with
  | true => simp [start_monitoring_cycle, unshelveSucceeded]
  | false =>
    cases get with
    | error e => simp [start_monitoring_cycle, unshelveSucceeded]
    | ok srv =>
      by_cases hst : srv.status = "SHELVED_OFFLOADED" <;>
        cases act <;> simp [start_monitoring_cycle, unshelveSucceeded, hst]

/-- Indexing a run: the i-th cycle result is the loop body run on the
i-th environment (the loop carries no state from one iteration into the
next). -/
theorem run_getD (cfg : MonitorConfig) (envs : List CycleEnv) (i : Nat)
    (h : i < envs.length) :
    (start_monitoring_run cfg envs).getD i dfltCycleResult =
      start_monitoring_cycle cfg (envs.getD i dfltCycleEnv) := by
  induction envs generalizing i with
  | nil => simp at h
  | cons e t ih =>
    cases i with
    | zero => rfl
    | succ j =>
      have hj : j < t.length := by simpa using h
      simpa only [start_monitoring_run, List.map_cons, List.getD_cons_succ]
        using ih j hj

/-- C4: the cadence takes only the two values, and it is the recovering
interval for exactly the sleeps that follow a successful-unshelve cycle,
reverting to the normal interval after every other cycle. -/
theorem c4_cadence_two_values (cfg : MonitorConfig) (envs : List CycleEnv) (i : Nat)
    (h : i < envs.length) :
    (((start_monitoring_run cfg envs).getD i dfltCycleResult).interval = 60 ∨
     ((start_monitoring_run cfg envs).getD i dfltCycleResult).interval =
       normalIntervalSecs cfg.pingIntervalMinutes) ∧
    ((start_monitoring_run cfg envs).getD i dfltCycleResult).interval =
      (if unshelveSucceeded (envs.getD i dfltCycleEnv) then 60
       else normalIntervalSecs cfg.pingIntervalMinutes) := by
  rw [run_getD cfg envs i h, cycle_interval_eq]
  refine ⟨?_, rfl⟩
  split
  · exact Or.inl rfl
  · exact Or.inr rfl

/-- A concrete two-cycle run: a successful unshelve followed by a cycle
with no unshelve. -/
def envsEx : List CycleEnv :=
  [{ pingOk := false, getServer := Except.ok srvShelved, action := Except.ok () },
   { pingOk := false, getServer := Except.ok srvActive, action := Except.ok () }]

/-- Witness for C4 at explicit inputs: in the concrete run the sleep
after the unshelve cycle is 60 seconds and the very next sleep is back
to the normal interval. -/
theorem c4_witness :
    ((start_monitoring_run cfgEx envsEx).getD 0 dfltCycleResult).interval = 60 ∧
    ((start_monitoring_run cfgEx envsEx).getD 1 dfltCycleResult).interval =
      normalIntervalSecs cfgEx.pingIntervalMinutes := by
  have h0 := (c4_cadence_two_values cfgEx envsEx 0 (by decide)).2
  have h1 := (c4_cadence_two_values cfgEx envsEx 1 (by decide)).2
  refine ⟨?_, ?_⟩
  · rw [h0]; decide
  · rw [h1]; decide

/-- A cycle whose server fetch did not succeed with status exactly
SHELVED_OFFLOADED makes no action call. -/
theorem cycle_actionCalls_zero (cfg : MonitorConfig) (env : CycleEnv)
    (h : ∀ srv, env.getServer = Except.ok srv → srv.status ≠ "SHELVED_OFFLOADED") :
    (start_monitoring_cycle cfg env).actionCalls = 0 := by
  rcases env with ⟨ping, get, act⟩
  cases ping with
  | true => simp [start_monitoring_cycle]
  | false =>
    cases get with
    | error e => simp [start_monitoring_cycle]
    | ok srv =>
      have hst := h srv rfl
      cases act <;> simp [start_monitoring_cycle, hst]

/-- C7: across arbitrarily many cycles in which every successful fetch
observes status ACTIVE, zero action calls occur — the status gate
precedes the action call, so an ACTIVE server is never unshelved. -/
theorem c7_active_never_unshelved (cfg : MonitorConfig) (envs : List CycleEnv)
    (h : ∀ env ∈ envs, ∀ srv, env.getServer = Except.ok srv → srv.status = "ACTIVE") :
    totalActionCalls cfg envs = 0 := by
  induction envs with
  | nil => rfl
  | cons e t ih =>
    have he : (start_monitoring_cycle cfg e).actionCalls = 0 :=
      cycle_actionCalls_zero cfg e (fun srv hg => by
        have hA := h e (by simp) srv hg
        rw [hA]; decide)
    have ht : totalActionCalls cfg t = 0 :=
      ih (fun env hm srv hg => h env (by simp [hm]) srv hg)
    simp only [totalActionCalls, start_monitoring_run, List.map_cons, List.sum_cons] at ht ⊢
    rw [he, ht]

/-- Witness for C7 at explicit inputs: three cycles against an ACTIVE
server (two failed probes, one healthy) make zero action calls. -/
theorem c7_witness :
    totalActionCalls cfgEx
      [{ pingOk := false, getServer := Except.ok srvActive, action := Except.ok () },
       { pingOk := true, getServer := Except.ok srvActive, action := Except.ok () },
       { pingOk := false, getServer := Except.ok srvActive, action := Except.ok () }] = 0 :=
  c7_active_never_unshelved cfgEx _ (by
    intro env hm srv hg
    simp only [List.mem_cons, List.not_mem_nil, or_false] at hm
    rcases hm with rfl | rfl | rfl <;>
      · injection hg with h2
        rw [← h2]
        rfl)

/-- C6 counterexample: at the concrete target string "not-an-ip", which
the std IpAddr parse rejects (parse outcome `none`), ping_server does
not return a boolean: the `.unwrap()` on the failed parse panics and
terminates the process, so the claim that the probe returns a boolean
for every target string is false. -/
theorem c6_counterexample :
    (ping_server none (Except.ok { target := "not-an-ip", rtt := 1 })).isSome = false :=
  rfl

/-- C6 (amended): for every target string that the std library parses as
an IP address, the probe returns a boolean: a successful send yields
true and any send/transport error is collapsed to false, never to a
distinct error kind and never to a loop- or process-terminating error;
only a target string that fails IP-address parsing panics. -/
theorem c6_parsed_probe_returns_bool (ip e : String) (r : PingReply) :
    ping_server (some ip) (Except.error e) = some false ∧
    ping_server (some ip) (Except.ok r) = some true :=
  ⟨rfl, rfl⟩

/-- A concrete server whose name contains "server" as a proper
substring. -/
def srvProd : ServerRec := { id := "42", name := "myserver-prod", status := "ACTIVE" }

/-- C8 counterexample: with exact lookup failing, a listing holding a
server named "myserver-prod" and the identifier "server", the lookup the
monitoring loop performs fails while the server_info resolution finds
the server by substring fallback — the identifier resolution of the loop has
no fallback, refuting the claim for the use site in the monitoring loop. -/
theorem c8_counterexample :
    start_monitoring_lookup (Except.error "not found") (Except.ok [srvProd]) "server" ≠
      server_info_resolve (Except.error "not found") (Except.ok [srvProd])
        (fun s => Except.ok s) "server" := by
  decide

/-- C8 (amended): the resolution of the server-info command supports exact
lookup with fallback substring match — when exact lookup succeeds it
returns that server, and when exact lookup fails and the name of some listed
server contains the identifier, the result is the outcome of the details
fetch for a listed server whose name contains the identifier (so a details
failure still fails the resolution) — while the lookup of the monitoring
loop is the bare exact get_server outcome with no fallback. -/
theorem c8_resolution_fallback (get : Except String ServerRec)
    (servers : List ServerRec) (details : ServerRec → Except String ServerRec)
    (ident : String) :
    (∀ s, get = Except.ok s →
      server_info_resolve get (Except.ok servers) details ident = Except.ok s) ∧
    (∀ e, get = Except.error e →
      ∀ s ∈ servers, strContainsSub s.name ident = true →
        ∃ s2, s2 ∈ servers ∧ strContainsSub s2.name ident = true ∧
          server_info_resolve get (Except.ok servers) details ident = details s2) ∧
    start_monitoring_lookup get (Except.ok servers) ident = get := by
  refine ⟨?_, ?_, rfl⟩
  · intro s hs
    rw [hs]
    rfl
  · intro e he s hs hsub
    have hex : ∃ x, x ∈ servers ∧ strContainsSub x.name ident = true := ⟨s, hs, hsub⟩
    have hsome : (servers.find? (fun x => strContainsSub x.name ident)).isSome :=
      List.find?_isSome.mpr hex
    obtain ⟨s2, hfind⟩ := Option.isSome_iff_exists.mp hsome
    refine ⟨s2, List.mem_of_find?_eq_some hfind, ?_, ?_⟩
    · simpa using List.find?_some hfind
    rw [he]
    simp [server_info_resolve, hfind]

/-- Witness for C8 at explicit inputs: an exact hit resolves to itself;
the fallback finds "myserver-prod" from the identifier "server" and
resolves through its details fetch — succeeding when that fetch
succeeds and failing when it fails; the lookup of the monitoring loop
returns the bare exact-lookup failure. -/
theorem c8_witness :
    server_info_resolve (Except.ok srvActive) (Except.ok [])
      (fun s => Except.ok s) "web" = Except.ok srvActive ∧
    server_info_resolve (Except.error "not found") (Except.ok [srvProd])
      (fun s => Except.ok s) "server" = Except.ok srvProd ∧
    server_info_resolve (Except.error "not found") (Except.ok [srvProd])
      (fun _ => Except.error "details failed") "server" = Except.error "details failed" ∧
    start_monitoring_lookup (Except.error "not found") (Except.ok [srvProd]) "server" =
      Except.error "not found" := by
  refine ⟨(c8_resolution_fallback (Except.ok srvActive) [] (fun s => Except.ok s) "web").1
            srvActive rfl, ?_, ?_,
          (c8_resolution_fallback (Except.error "not found") [srvProd]
            (fun s => Except.ok s) "server").2.2⟩
  · obtain ⟨s2, hmem, hsub, heq⟩ :=
      (c8_resolution_fallback (Except.error "not found") [srvProd]
        (fun s => Except.ok s) "server").2.1 "not found" rfl srvProd (by simp) (by decide)
    have hs2 : s2 = srvProd := by simpa using hmem
    rw [heq, hs2]
  · obtain ⟨s2, hmem, hsub, heq⟩ :=
      (c8_resolution_fallback (Except.error "not found") [srvProd]
        (fun _ => Except.error "details failed") "server").2.1
        "not found" rfl srvProd (by simp) (by decide)
    rw [heq]

/-- C9: a missing SERVER_NAME or PING_IP is a startup-fatal
configuration error (no configuration is produced, the loop is never
entered); an absent PING_INTERVAL_MINUTES defaults to 5 (minutes) and
an absent PING_TIMEOUT_SECONDS to 3 (seconds); and a
successful-unshelve cycle sets the next sleep to exactly 60 seconds
independent of the configuration. -/
theorem c9_config_defaults (envv : String → Option String) (cfg : MonitorConfig)
    (env : CycleEnv) (srv : ServerRec) :
    (envv "SERVER_NAME" = none →
      start_monitoring_config envv = Except.error "SERVER_NAME not set in environment") ∧
    (envv "PING_IP" = none → ∀ c, start_monitoring_config envv ≠ Except.ok c) ∧
    (envv "PING_INTERVAL_MINUTES" = none →
      ∀ c, start_monitoring_config envv = Except.ok c → c.pingIntervalMinutes = 5) ∧
    (envv "PING_TIMEOUT_SECONDS" = none →
      ∀ c, start_monitoring_config envv = Except.ok c → c.pingTimeoutSecs = 3) ∧
    (env.pingOk = false → env.getServer = Except.ok srv →
      srv.status = "SHELVED_OFFLOADED" → env.action = Except.ok () →
      (start_monitoring_cycle cfg env).interval = 60) := by
  refine ⟨?_, ?_, ?_, ?_, ?_⟩
  · intro h
    simp [start_monitoring_config, h]
  · intro h c
    cases hs : envv "SERVER_NAME" with
    | none => simp [start_monitoring_config, hs]
    | some sn => simp [start_monitoring_config, hs, h]
  · intro h c hc
    cases hs1 : envv "SERVER_NAME" with
    | none => rw [start_monitoring_config, hs1] at hc; cases hc
    | some sn =>
      cases hs2 : envv "PING_IP" with
      | none => rw [start_monitoring_config, hs1, hs2] at hc; cases hc
      | some ip =>
        rw [start_monitoring_config, hs1, hs2, h] at hc
        have hp5 : parseU64 (Option.getD none "5") = Except.ok 5 := by rfl
        rw [hp5] at hc
        cases hpt : parseU64 ((envv "PING_TIMEOUT_SECONDS").getD "3") with
        | error e2 => rw [hpt] at hc; cases hc
        | ok t =>
          rw [hpt] at hc
          cases hc
          rfl
  · intro h c hc
    cases hs1 : envv "SERVER_NAME" with
    | none => rw [start_monitoring_config, hs1] at hc; cases hc
    | some sn =>
      cases hs2 : envv "PING_IP" with
      | none => rw [start_monitoring_config, hs1, hs2] at hc; cases hc
      | some ip =>
        rw [start_monitoring_config, hs1, hs2, h] at hc
        cases hpm : parseU64 ((envv "PING_INTERVAL_MINUTES").getD "5") with
        | error e2 => rw [hpm] at hc; cases hc
        | ok m =>
          rw [hpm] at hc
          have hp3 : parseU64 (Option.getD none "3") = Except.ok 3 := by rfl
          rw [hp3] at hc
          cases hc
          rfl
  · intro hping hget hst hact
    simp [start_monitoring_cycle, hping, hget, hst, hact]

/-- An environment with only the two required variables set. -/
def envFull : String → Option String := fun k =>
  if k = "SERVER_NAME" then some "web1"
  else if k = "PING_IP" then some "10.0.0.7"
  else none

/-- An environment with SERVER_NAME set but PING_IP missing. -/
def envNoPing : String → Option String := fun k =>
  if k = "SERVER_NAME" then some "web1" else none

/-- The configuration produced from `envFull`: the two defaults kick
in. -/
def cfgFull : MonitorConfig :=
  { serverName := "web1", pingIp := "10.0.0.7", pingIntervalMinutes := 5, pingTimeoutSecs := 3 }

/-- Witness for C9 at explicit inputs: the empty environment is fatal,
a missing PING_IP is fatal, the defaults produce 5 and 3, and a
successful unshelve yields the fixed 60-second interval. -/
theorem c9_witness :
    start_monitoring_config (fun _ => none) =
      Except.error "SERVER_NAME not set in environment" ∧
    start_monitoring_config envNoPing ≠ Except.ok cfgEx ∧
    cfgFull.pingIntervalMinutes = 5 ∧ cfgFull.pingTimeoutSecs = 3 ∧
    (start_monitoring_cycle cfgEx
      { pingOk := false, getServer := Except.ok srvShelved,
        action := Except.ok () }).interval = 60 := by
  have hFull : start_monitoring_config envFull = Except.ok cfgFull := by rfl
  exact ⟨(c9_config_defaults (fun _ => none) cfgEx dfltCycleEnv srvShelved).1 rfl,
         (c9_config_defaults envNoPing cfgEx dfltCycleEnv srvShelved).2.1 rfl cfgEx,
         (c9_config_defaults envFull cfgEx dfltCycleEnv srvShelved).2.2.1 rfl cfgFull hFull,
         (c9_config_defaults envFull cfgEx dfltCycleEnv srvShelved).2.2.2.1 rfl cfgFull hFull,
         (c9_config_defaults envFull cfgEx
            { pingOk := false, getServer := Except.ok srvShelved, action := Except.ok () }
            srvShelved).2.2.2.2 rfl rfl rfl rfl⟩

/-- C10: the manual unshelve command returns Ok on every path, so the
process exits zero; a lookup failure or an action failure is only
printed, never propagated to the caller. -/
theorem c10_unshelve_manual_ok (get : Except String ServerRec) (action : Except String Unit) :
    (unshelve_manual get action).2 = Except.ok () ∧
    (∀ e, get = Except.error e →
      ("✗ Failed to get server info: " ++ e) ∈ (unshelve_manual get action).1) ∧
    (∀ srv e, get = Except.ok srv → action = Except.error e →
      ("✗ Failed to unshelve server: " ++ e) ∈ (unshelve_manual get action).1) := by
  refine ⟨?_, ?_, ?_⟩
  · cases get <;> cases action <;> rfl
  · intro e he
    rw [he]
    cases action <;> simp [unshelve_manual]
  · intro srv e hg ha
    rw [hg, ha]
    simp [unshelve_manual]

/-- Witness for C10 at explicit inputs: both failure modes still return
Ok, and the action failure is printed. -/
theorem c10_witness :
    (unshelve_manual (Except.error "auth failed") (Except.ok ())).2 = Except.ok () ∧
    (unshelve_manual (Except.ok srvShelved) (Except.error "quota")).2 = Except.ok () ∧
    ("✗ Failed to unshelve server: " ++ "quota") ∈
      (unshelve_manual (Except.ok srvShelved) (Except.error "quota")).1 :=
  ⟨(c10_unshelve_manual_ok (Except.error "auth failed") (Except.ok ())).1,
   (c10_unshelve_manual_ok (Except.ok srvShelved) (Except.error "quota")).1,
   (c10_unshelve_manual_ok (Except.ok srvShelved) (Except.error "quota")).2.2
     srvShelved "quota" rfl rfl⟩
